import Mathlib

set_option maxRecDepth 20000

/-
Verification development for the pyat energy-loss / revolution modules
(src/pyat/at/physics/energy_loss.py and src/pyat/at/physics/revolution.py).

Shallow embedding conventions:
  * Python floats are modelled as rationals.
  * Transcendental library functions (sin, cos, arcsin, sqrt) and the
    scipy bounded least-squares solver are modelled as explicit oracle
    parameters: the control flow of the embedded functions never depends
    on anything the source code does not compute from their outputs.
  * Python exceptions are modelled by the Except monad with a dedicated
    error datatype; a reference to an undefined Python name is modelled
    by the nameError constructor carrying the name.
  * numpy arrays over the selected cavities are modelled as lists.
-/

namespace AtPhys

/-- Physical constants and the real-valued library functions consumed as
given (math.pi, math.sqrt); kept abstract so every theorem holds for any
values of the constants. -/
structure Consts where
  clight : ℚ
  piQ : ℚ
  e_mass : ℚ
  Cgamma : ℚ
  sqrtQ : ℚ → ℚ

/-- Python-level error outcomes observable from the two modules. -/
inductive PyErr where
  | atError (msg : String)
  | nameError (nm : String)
  | keyError (k : String)
  | valueError (msg : String)
  | radiationRequired (wanted : Bool)
deriving DecidableEq

/-- Non-fatal warnings emitted by the code (FutureWarning). -/
inductive Warning where
  | futureWarning (msg : String)
deriving DecidableEq

/-- Enum class ELossMethod of energy_loss.py. -/
inductive ELossMethod where
  | INTEGRAL
  | TRACKING
deriving DecidableEq

/-- Possible runtime values of the method argument of get_energy_loss: one
of the two enum members, a string, or any other Python object (carried as
its repr text). -/
inductive MethodArg where
  | enum (m : ELossMethod)
  | str (s : String)
  | other (txt : String)
deriving DecidableEq

/-- Lattice elements, keeping only the attributes the two modules read.
The by1 and bx1 lists are row 1 of the wiggler By and Bx tables. -/
inductive Elem where
  | dipole (bendingAngle length : ℚ)
  | wiggler (passMethod : String) (length bmax : ℚ) (by1 bx1 : List ℚ)
  | rfcavity (frequency voltage timeLag : ℚ)
  | marker
deriving DecidableEq

/-- The lattice, reduced to the scalar properties and the element list the
two modules consume. cellLength models get_s_pos(ring, len(ring))[0]. -/
structure Ring where
  elems : List Elem
  energy : ℚ
  periodicity : ℚ
  beta : ℚ
  gamma : ℚ
  radiation : Bool
  cellLength : ℚ
deriving DecidableEq

/-- External tracking collaborators (closed-orbit search, one-turn
tracking, radiation-off copies), modelled as oracle functions. The
lattice_pass6 field maps a ring and one 6-dimensional particle to the
tracked particle after one turn; find_orbit4 takes the ring, a momentum
deviation and the keep-lattice flag. -/
structure TrackOracles where
  lattice_pass6 : Ring → (Fin 6 → ℚ) → (Fin 6 → ℚ)
  find_orbit4 : Ring → ℚ → Bool → (Fin 6 → ℚ)
  radiation_off_copy : Ring → Ring
  radiation_off_tracking : Ring → Ring

/-- Numeric oracles for the synchronous-phase solver: pointwise sin, cos
and arcsin, and the scipy bounded least-squares search
least_squares(f, x0, bounds=(lo, hi)).x[0]. -/
structure SolveOracles where
  sinQ : ℚ → ℚ
  cosQ : ℚ → ℚ
  arcsinQ : ℚ → ℚ
  lsq : (ℚ → ℚ) → ℚ → ℚ → ℚ → ℚ

/-- Per-element contribution to the i2 loop of get_energy_loss.integral:
dipoles contribute BendingAngle**2 / Length, wigglers whose PassMethod is
not DriftPass contribute Length * (sum(coefh*coefh) + sum(coefv*coefv)) *
(Bmax/Brho)**2 / 2; everything else contributes nothing. -/
def integral_contrib (Brho : ℚ) : Elem → ℚ
  | Elem.dipole a l => a ^ 2 / l
  | Elem.wiggler pm len bmax by1 bx1 =>
      if pm ≠ "DriftPass" then
        len * ((by1.map (fun c => c * c)).sum + (bx1.map (fun c => c * c)).sum)
          * (bmax / Brho) ^ 2 / 2
      else 0
  | Elem.rfcavity _ _ _ => 0
  | Elem.marker => 0

/-- The accumulation loop for i2 in get_energy_loss.integral. -/
def i2_loop (Brho : ℚ) : List Elem → ℚ
  | [] => 0
  | e :: rest => integral_contrib Brho e + i2_loop Brho rest

/-- Body of get_energy_loss.integral: Brho = sqrt(energy**2 - e_mass**2)
/ clight, e_loss = Cgamma / 2 / pi * energy**4 * i2. -/
def eloss_integral (C : Consts) (ring : Ring) : ℚ :=
  let Brho := C.sqrtQ (ring.energy ^ 2 - C.e_mass ^ 2) / C.clight
  C.Cgamma / 2 / C.piQ * ring.energy ^ 4 * i2_loop Brho ring.elems

/-- Body of get_energy_loss.tracking, including its check_radiation(True)
decorator. Modelled from the spec: the check_radiation decorator (code
not under src) fails with a PreconditionViolated error when the ring has
radiation in the wrong state, and otherwise runs the body unchanged. The
body propagates a zero 6-vector through a radiation-off copy and returns
-o6[4] * ring.energy. -/
def eloss_tracking (T : TrackOracles) (ring : Ring) : Except PyErr ℚ :=
  if ring.radiation then
    let ringtmp := T.radiation_off_tracking ring
    let o6 := T.lattice_pass6 ringtmp (fun _ => 0)
    Except.ok (-(o6 4) * ring.energy)
  else Except.error (PyErr.radiationRequired true)

/-- Lookup of the Python expression ELossMethod[name]: succeeds exactly on
the two member names. -/
def methodFromName (s : String) : Option ELossMethod :=
  if s = "INTEGRAL" then some ELossMethod.INTEGRAL
  else if s = "TRACKING" then some ELossMethod.TRACKING
  else none

/-- Rendering of an enum member, as used in the FutureWarning message. -/
def methodName : ELossMethod → String
  | ELossMethod.INTEGRAL => "ELossMethod.INTEGRAL"
  | ELossMethod.TRACKING => "ELossMethod.TRACKING"

/-- Dispatch on a (normalized) enum value inside get_energy_loss: the
INTEGRAL and TRACKING branches, each multiplied by ring.periodicity. -/
def run_method (C : Consts) (T : TrackOracles) (ring : Ring) :
    ELossMethod → Except PyErr ℚ
  | ELossMethod.INTEGRAL => Except.ok (ring.periodicity * eloss_integral C ring)
  | ELossMethod.TRACKING =>
      (eloss_tracking T ring).map (fun v => ring.periodicity * v)

/-- get_energy_loss of energy_loss.py. Returns the Except outcome paired
with the list of warnings emitted during the call. A string method is
looked up case-insensitively in the enum (KeyError on failure) and a
FutureWarning is emitted; any other non-enum value reaches the final else
branch and raises AtError. -/
def get_energy_loss (C : Consts) (T : TrackOracles) (ring : Ring)
    (method : MethodArg) : Except PyErr ℚ × List Warning :=
  match method with
  | MethodArg.enum m => (run_method C T ring m, [])
  | MethodArg.str s =>
      match methodFromName s.toUpper with
      | some m =>
          (run_method C T ring m,
           [Warning.futureWarning ("You should use " ++ methodName m)])
      | none => (Except.error (PyErr.keyError s.toUpper), [])
  | MethodArg.other txt =>
      (Except.error (PyErr.atError ("Invalid method: " ++ txt)), [])

/-- Frequency, voltage and time-lag of an element when it is an RF
cavity. -/
def cavityData : Elem → Option (ℚ × ℚ × ℚ)
  | Elem.rfcavity f v t => some (f, v, t)
  | _ => none

/-- get_refpts(ring, RFCavity): indices of the RF cavity elements. -/
def get_refpts_cav (ring : Ring) : List ℕ :=
  ring.elems.enum.filterMap
    (fun p => if (cavityData p.2).isSome then some p.1 else none)

/-- ring.select(cavpts) followed by reading Frequency, Voltage, TimeLag of
each selected cavity. -/
def selectCavs (ring : Ring) (idx : List ℕ) : List (ℚ × ℚ × ℚ) :=
  idx.filterMap (fun i => (ring.elems.get? i).bind cavityData)

/-- Modelled from the spec: the combined RF voltage and frequency
accessors ring.get_rf_voltage / ring.get_rf_frequency (code not under
src). Per the spec they may fail if the selected cavities are
heterogeneous, triggering the fallback path: here they succeed exactly
when the selected cavity set is nonempty and all its cavities share one
frequency, returning the summed voltage and that common frequency, and
fail with a lattice AtError otherwise. -/
def combined_rf (ring : Ring) (cavpts : Option (List ℕ)) :
    Except PyErr (ℚ × ℚ) :=
  let idx := cavpts.getD (get_refpts_cav ring)
  match selectCavs ring idx with
  | [] => Except.error (PyErr.atError ("No cavity found in the lattice"))
  | c :: rest =>
      if rest.all (fun d => d.1 = c.1) then
        Except.ok ((c :: rest).foldl (fun s d => s + d.2.1) 0, c.1)
      else
        Except.error (PyErr.atError ("Cavities do not have the same frequency"))

/-- First index of the minimum of a rational list (numpy.argmin); 0 on the
empty list, ties resolved to the earliest index. -/
def argminQ : List ℚ → ℕ
  | [] => 0
  | x :: xs =>
      match xs.min? with
      | none => 0
      | some m => if x ≤ m then 0 else argminQ xs + 1

/-- Line 128 of energy_loss.py: timelag = phis + tl0 -
tl0[numpy.argmin(freq)], elementwise over the selected cavities. -/
def timelag_shift (phis : ℚ) (tl0 freq : List ℚ) : List ℚ :=
  tl0.map (fun t => phis + t - tl0.getD (argminQ freq) 0)

/-- Multi-frequency fallback body of get_timelag_fromU0 (lines 116-128).
The sums model numpy elementwise products over the freq/rfv arrays; the
else branch of the sign test reproduces the reference to the undefined
Python name zero_cross on line 127, which raises NameError. -/
def fallback_timelag (O : SolveOracles) (C : Consts) (u0 : ℚ)
    (freq rfv tl0 : List ℚ) : Except PyErr (List ℚ) :=
  if u0 > rfv.sum then
    Except.error (PyErr.atError ("Not enough RF voltage: unstable ring"))
  else
    match freq.min? with
    | none => Except.error (PyErr.valueError ("zero-size array reduction"))
    | some fmin =>
      let ctmax := 1 / fmin * C.clight / 2
      let eqf := fun x =>
        ((rfv.zip freq).map
          (fun p => p.1 * O.sinQ (2 * C.piQ * p.2 * x / C.clight))).sum - u0
      let deq := fun x =>
        ((rfv.zip freq).map
          (fun p => p.1 * O.cosQ (2 * C.piQ * p.2 * x / C.clight))).sum
      let zero_diff := O.lsq deq (ctmax / 2) 0 ctmax
      if deq (zero_diff - 1 / 1000000) > 0 then
        let phis := O.lsq eqf (zero_diff / 2) 0 zero_diff
        Except.ok (timelag_shift phis tl0 freq)
      else
        Except.error (PyErr.nameError ("zero_cross"))

/-- get_timelag_fromU0 of energy_loss.py. When the combined accessors
succeed (single shared frequency) the code checks the voltage and then,
on line 132, evaluates np.ones with np an undefined name (the module only
imports numpy), raising NameError before any value is returned. When the
accessors fail it runs the multi-frequency fallback on the per-cavity
attribute arrays. -/
def get_timelag_fromU0 (O : SolveOracles) (C : Consts) (T : TrackOracles)
    (ring : Ring) (method : MethodArg) (cavpts : Option (List ℕ)) :
    Except PyErr (List ℚ) := do
  let u0 ← (get_energy_loss C T ring method).1
  match combined_rf ring cavpts with
  | Except.ok (rfv, _freq) =>
      if u0 > rfv then
        Except.error (PyErr.atError ("Not enough RF voltage: unstable ring"))
      else
        Except.error (PyErr.nameError ("np"))
  | Except.error _ =>
      let cavs := selectCavs ring (cavpts.getD (get_refpts_cav ring))
      fallback_timelag O C u0 (cavs.map (fun c => c.1))
        (cavs.map (fun c => c.2.1)) (cavs.map (fun c => c.2.2))

/-- The cavity voltage the stability check of get_timelag_fromU0 compares
u0 against: the combined scalar voltage when the accessors succeed, the
sum of the per-cavity voltages of the resolved selection otherwise. -/
def total_rf_voltage (ring : Ring) (cavpts : Option (List ℕ)) : ℚ :=
  match combined_rf ring cavpts with
  | Except.ok (rfv, _) => rfv
  | Except.error _ =>
      ((selectCavs ring (cavpts.getD (get_refpts_cav ring))).map
        (fun c => c.2.1)).sum

/-- Frequencies of the resolved cavity selection, as read by the fallback
path of get_timelag_fromU0. -/
def sel_freq (ring : Ring) (cavpts : Option (List ℕ)) : List ℚ :=
  (selectCavs ring (cavpts.getD (get_refpts_cav ring))).map (fun c => c.1)

/-- Pre-existing time-lags of the resolved cavity selection, as read by
the fallback path of get_timelag_fromU0. -/
def sel_tl0 (ring : Ring) (cavpts : Option (List ℕ)) : List ℚ :=
  (selectCavs ring (cavpts.getD (get_refpts_cav ring))).map (fun c => c.2.2)

/-- Replace the TimeLag of the element at index i when that element is an
RF cavity; leave the list unchanged otherwise. -/
def setTimeLagAt (elems : List Elem) (i : ℕ) (v : ℚ) : List Elem :=
  match elems.get? i with
  | some (Elem.rfcavity f vol _) => elems.set i (Elem.rfcavity f vol v)
  | _ => elems

/-- Modelled from the spec: set_value_refpts (code not under src), the
element-attribute bulk-set operation at a set of reference points,
applied to the TimeLag attribute. It pairs each reference point with the
matching entry of the value array and rewrites only the targeted cavity
elements; with copy=False this is the in-place mutation of the ring, with
copy=True it is the shallow copy that the operation returns. -/
def set_value_refpts (ring : Ring) (refpts : List ℕ) (values : List ℚ) :
    Ring :=
  { ring with
    elems := (refpts.zip values).foldl
      (fun es p => setTimeLagAt es p.1 p.2) ring.elems }

/-- set_cavity_phase of energy_loss.py. The result pairs the state of the
caller-supplied ring after the call with the Python return value of the
function. The source calls set_value_refpts(ring, cavpts, TimeLag,
timelag, copy=copy) and discards its result, and the function body has no
return statement, so the Python return value is always None: with
copy=True the shallow copy is built and dropped and the supplied ring is
left unchanged, with copy=False the supplied ring is mutated in place. -/
def set_cavity_phase (O : SolveOracles) (C : Consts) (T : TrackOracles)
    (ring : Ring) (method : MethodArg) (refpts cavpts : Option (List ℕ))
    (copy : Bool) : Except PyErr (Ring × Option Ring) := do
  let cavsel :=
    match cavpts, refpts with
    | none, some r => r
    | none, none => get_refpts_cav ring
    | some c, _ => c
  let tl ← get_timelag_fromU0 O C T ring method (some cavsel)
  if copy then
    pure (ring, none)
  else
    pure (set_value_refpts ring cavsel tl, none)

/-- Default differentiation step DConstant.DPStep. -/
def DConstant_DPStep : ℚ := 1 / 1000000

/-- get_mcf of revolution.py, including its check_radiation(False)
decorator (modelled from the spec: fails with a PreconditionViolated
error when radiation is on). Central difference of the one-turn path
length coordinate with respect to momentum deviation. -/
def get_mcf (T : TrackOracles) (ring : Ring) (dp : ℚ) (keep_lattice : Bool)
    (DPStep : Option ℚ) : Except PyErr ℚ :=
  if ring.radiation then Except.error (PyErr.radiationRequired false)
  else
    let dp_step := DPStep.getD DConstant_DPStep
    let fp_a := T.find_orbit4 ring (dp - dp_step / 2) keep_lattice
    let fp_b := T.find_orbit4 ring (dp + dp_step / 2) true
    let b0 := T.lattice_pass6 ring fp_a
    let b1 := T.lattice_pass6 ring fp_b
    Except.ok ((b1 5 - b0 5) / dp_step / ring.cellLength)

/-- get_slip_factor of revolution.py: etac = 1.0 / gamma / gamma -
get_mcf(ring, **kwargs), with the get_mcf exception propagating. -/
def get_slip_factor (T : TrackOracles) (ring : Ring) (dp : ℚ)
    (keep_lattice : Bool) (DPStep : Option ℚ) : Except PyErr ℚ :=
  let gamma := ring.gamma
  (get_mcf T ring dp keep_lattice DPStep).map
    (fun m => 1 / gamma / gamma - m)

/-- The path-length deviation probed by get_revolution_frequency when dp
is given: the longitudinal coordinate after one turn of the dp closed
orbit, tracked on a radiation-off copy when the ring has radiation on. -/
def dct_probe (T : TrackOracles) (ring : Ring) (p : ℚ) : ℚ :=
  let rnorad := if ring.radiation then T.radiation_off_copy ring else ring
  T.lattice_pass6 rnorad (T.find_orbit4 rnorad p false) 5

/-- get_revolution_frequency of revolution.py. -/
def get_revolution_frequency (C : Consts) (T : TrackOracles) (ring : Ring)
    (dp dct : Option ℚ) : ℚ :=
  let lcell := ring.cellLength
  let frev := ring.beta * C.clight / lcell / ring.periodicity
  match dct with
  | some d => frev * (lcell / (lcell + d))
  | none =>
      match dp with
      | some p => frev * (lcell / (lcell + dct_probe T ring p))
      | none => frev

/-- Decidable equality of Except outcomes, used to evaluate the embedded
functions at concrete inputs. -/
instance {ε α : Type} [DecidableEq ε] [DecidableEq α] :
    DecidableEq (Except ε α) := fun x y =>
  match x, y with
  | Except.ok a, Except.ok b =>
      if h : a = b then isTrue (congrArg Except.ok h)
      else isFalse (fun hh => h (Except.ok.inj hh))
  | Except.ok _, Except.error _ => isFalse (fun hh => Except.noConfusion hh)
  | Except.error _, Except.ok _ => isFalse (fun hh => Except.noConfusion hh)
  | Except.error e, Except.error f =>
      if h : e = f then isTrue (congrArg Except.error h)
      else isFalse (fun hh => h (Except.error.inj hh))

/-- Written from the words of the spec, section 4.1: Brho is
sqrt(energy squared minus restMassEnergy squared) over lightSpeed. -/
def spec_Brho (C : Consts) (energy : ℚ) : ℚ :=
  C.sqrtQ (energy ^ 2 - C.e_mass ^ 2) / C.clight

/-- Written from the words of the spec, section 4.1: the per-element
radiation-integral contribution. Dipoles contribute bendingAngle squared
over length; wigglers whose pass mode is not the field-free drift variant
contribute length times the sum of squared horizontal and vertical field
harmonics times (peakField/Brho) squared over 2; all other element kinds
contribute zero. -/
def spec_elem_i2 (C : Consts) (energy : ℚ) : Elem → ℚ
  | Elem.dipole ang len => ang ^ 2 / len
  | Elem.wiggler pm len bmax by1 bx1 =>
      if pm = "DriftPass" then 0
      else
        len * ((by1.map (fun c => c ^ 2)).sum + (bx1.map (fun c => c ^ 2)).sum)
          * (bmax / spec_Brho C energy) ^ 2 / 2
  | Elem.rfcavity _ _ _ => 0
  | Elem.marker => 0

/-- Written from the words of the spec: the total second
synchrotron-radiation integral of the ring. -/
def i2_spec (C : Consts) (ring : Ring) : ℚ :=
  (ring.elems.map (spec_elem_i2 C ring.energy)).sum

/-- Concrete constants used for evaluating the embedding at explicit
inputs. The values are deliberately small rationals (and the identity for
sqrt) so that kernel evaluation stays cheap; every general theorem is
quantified over all Consts. -/
def Cc : Consts :=
  { clight := 4, piQ := 3, e_mass := 1, Cgamma := 6, sqrtQ := fun x => x }

/-- Concrete tracking oracles used for evaluation at explicit inputs. -/
def T0 : TrackOracles :=
  { lattice_pass6 := fun _ v => v, find_orbit4 := fun _ _ _ => fun _ => 0,
    radiation_off_copy := id, radiation_off_tracking := id }

/-- Concrete solver oracles with cos identically -1: the derivative sum
evaluated just before the stationary point is negative, so
get_timelag_fromU0 takes the else branch of the sign test. The bounded
search oracle returns its seed, which lies inside the requested bounds
for all the inputs used here. -/
def Oneg : SolveOracles :=
  { sinQ := fun _ => 0, cosQ := fun _ => -1, arcsinQ := fun _ => 0,
    lsq := fun _ x0 _ _ => x0 }

/-- Concrete solver oracles with cos identically 1: the sign test is
positive and get_timelag_fromU0 takes the first branch. -/
def Opos : SolveOracles :=
  { sinQ := fun _ => 0, cosQ := fun _ => 1, arcsinQ := fun _ => 0,
    lsq := fun _ x0 _ _ => x0 }

/-- A ring with a single RF cavity: the combined accessors succeed, so
get_timelag_fromU0 takes the single-frequency path. No dipoles, so the
integral energy loss is zero. -/
def ring1 : Ring :=
  { elems := [Elem.rfcavity 352 6 0], energy := 1, periodicity := 1,
    beta := 1, gamma := 1, radiation := false, cellLength := 1 }

/-- A ring with two cavities at distinct frequencies 1 and 2 and zero
pre-existing time-lags: the combined accessors fail and the
multi-frequency fallback runs. -/
def ring2 : Ring :=
  { elems := [Elem.rfcavity 1 1 0, Elem.rfcavity 2 1 0], energy := 1,
    periodicity := 1, beta := 1, gamma := 1, radiation := false,
    cellLength := 1 }

/-- Like ring2 but with pre-existing time-lags 5 and 7 on the two
cavities. -/
def ring3 : Ring :=
  { elems := [Elem.rfcavity 1 1 5, Elem.rfcavity 2 1 7], energy := 1,
    periodicity := 1, beta := 1, gamma := 1, radiation := false,
    cellLength := 1 }

/-- A ring with one dipole (so the integral energy loss is positive) and
two cavities at distinct frequencies with negligible voltage: the energy
loss exceeds the summed cavity voltage. -/
def ring4 : Ring :=
  { elems := [Elem.dipole 1 1, Elem.rfcavity 1 (1 / 4) 0,
      Elem.rfcavity 2 (1 / 4) 0],
    energy := 1, periodicity := 1, beta := 1, gamma := 1,
    radiation := false, cellLength := 1 }

theorem i2_loop_eq_spec (C : Consts) (energy : ℚ) :
    ∀ l : List Elem,
      i2_loop (C.sqrtQ (energy ^ 2 - C.e_mass ^ 2) / C.clight) l =
        (l.map (spec_elem_i2 C energy)).sum := by
  intro l
  induction l with
  | nil => rfl
  | cons e rest ih =>
      have he : integral_contrib (C.sqrtQ (energy ^ 2 - C.e_mass ^ 2) / C.clight) e
          = spec_elem_i2 C energy e := by
        cases e with
        | dipole a len => rfl
        | wiggler pm len bmax by1 bx1 =>
            by_cases h : pm = "DriftPass"
            · simp [integral_contrib, spec_elem_i2, h]
            · simp [integral_contrib, spec_elem_i2, spec_Brho, h, pow_two]
        | rfcavity f v t => rfl
        | marker => rfl
      simp [i2_loop, List.map_cons, List.sum_cons, he, ih]

/-- C4: get_energy_loss with the INTEGRAL method returns periodicity times
Cgamma/(2 pi) times energy^4 times I2, where I2 sums bendingAngle^2/length
over dipoles and the wiggler harmonic formula over non-drift wigglers. -/
theorem C4_integral_energy_loss (C : Consts) (T : TrackOracles) (ring : Ring) :
    get_energy_loss C T ring (MethodArg.enum ELossMethod.INTEGRAL) =
      (Except.ok (ring.periodicity *
        (C.Cgamma / (2 * C.piQ) * ring.energy ^ 4 * i2_spec C ring)), []) := by
  simp only [get_energy_loss, run_method, eloss_integral, i2_spec]
  rw [i2_loop_eq_spec C ring.energy ring.elems, div_div]

/-- C9: get_slip_factor is exactly 1/gamma^2 minus get_mcf with the same
arguments, errors propagated unchanged. -/
theorem C9_slip_factor_composition (T : TrackOracles) (ring : Ring) (dp : ℚ)
    (keep_lattice : Bool) (DPStep : Option ℚ) :
    get_slip_factor T ring dp keep_lattice DPStep =
      (get_mcf T ring dp keep_lattice DPStep).map
        (fun m => 1 / ring.gamma ^ 2 - m) := by
  unfold get_slip_factor
  cases h : get_mcf T ring dp keep_lattice DPStep with
  | ok v =>
      simp only [Except.map]
      congr 1
      ring
  | error e => simp [Except.map]

/-- C10: in get_revolution_frequency a given dct takes precedence and dp
is ignored; the dp probe runs only when dct is none; with both none the
nominal frequency is returned. -/
theorem C10_revolution_frequency_precedence (C : Consts) (T : TrackOracles)
    (ring : Ring) :
    (∀ d dp, get_revolution_frequency C T ring dp (some d) =
      ring.beta * C.clight / ring.cellLength / ring.periodicity *
        (ring.cellLength / (ring.cellLength + d))) ∧
    (∀ p, get_revolution_frequency C T ring (some p) none =
      ring.beta * C.clight / ring.cellLength / ring.periodicity *
        (ring.cellLength / (ring.cellLength + dct_probe T ring p))) ∧
    get_revolution_frequency C T ring none none =
      ring.beta * C.clight / ring.cellLength / ring.periodicity :=
  ⟨fun _ _ => rfl, fun _ => rfl, rfl⟩

/-- C8: the radiation-state preconditions are enforced as
distinguishable errors. get_energy_loss with the TRACKING method fails
with the radiation precondition error exactly when the ring has
radiation off and succeeds otherwise, while get_mcf fails with the
radiation precondition error exactly when radiation is on and succeeds
otherwise. -/
theorem C8_radiation_preconditions (C : Consts) (T : TrackOracles)
    (ring : Ring) (dp : ℚ) (keep_lattice : Bool) (DPStep : Option ℚ) :
    ((get_energy_loss C T ring (MethodArg.enum ELossMethod.TRACKING)).1 =
        Except.error (PyErr.radiationRequired true) ↔ ring.radiation = false) ∧
    ((∃ v, (get_energy_loss C T ring (MethodArg.enum ELossMethod.TRACKING)).1 =
        Except.ok v) ↔ ring.radiation = true) ∧
    (get_mcf T ring dp keep_lattice DPStep =
        Except.error (PyErr.radiationRequired false) ↔ ring.radiation = true) ∧
    ((∃ v, get_mcf T ring dp keep_lattice DPStep = Except.ok v) ↔
        ring.radiation = false) := by
  cases hr : ring.radiation <;>
    simp [get_energy_loss, run_method, eloss_tracking, get_mcf, hr, Except.map]

/-- C7: method argument handling of get_energy_loss. A non-enum,
non-string method raises the invalid-method AtError; a string not naming
an enum member (case-insensitively) raises KeyError from the enum
lookup, which the spec taxonomy files under InvalidArgument; a string
naming a member behaves exactly like the enum value apart from one
FutureWarning; and an enum value never fails with anything but the
radiation precondition error. -/
theorem C7_method_argument_handling (C : Consts) (T : TrackOracles)
    (ring : Ring) :
    (∀ txt, (get_energy_loss C T ring (MethodArg.other txt)).1 =
        Except.error (PyErr.atError ("Invalid method: " ++ txt))) ∧
    (∀ s, methodFromName s.toUpper = none →
        get_energy_loss C T ring (MethodArg.str s) =
          (Except.error (PyErr.keyError s.toUpper), [])) ∧
    (∀ s m, methodFromName s.toUpper = some m →
        get_energy_loss C T ring (MethodArg.str s) =
          ((get_energy_loss C T ring (MethodArg.enum m)).1,
           [Warning.futureWarning ("You should use " ++ methodName m)])) ∧
    (∀ m e, (get_energy_loss C T ring (MethodArg.enum m)).1 =
        Except.error e → e = PyErr.radiationRequired true) := by
  refine ⟨fun txt => rfl, fun s h => ?_, fun s m h => ?_, fun m e h => ?_⟩
  · simp [get_energy_loss, h]
  · simp [get_energy_loss, h]
  · cases m with
    | INTEGRAL => simp [get_energy_loss, run_method] at h
    | TRACKING =>
        by_cases hr : ring.radiation <;>
          simp [get_energy_loss, run_method, eloss_tracking, hr,
            Except.map] at h
        exact h.symm



/-- C1: the claim says both branches of the sign test complete and
return a root in their stated interval. Evaluating the fallback path at
a two-frequency cavity set for which the derivative sign just before the
stationary point is not positive shows otherwise: the else branch
references the undefined Python name zero_cross (line 127, a slip for
zero_diff) and the call raises NameError instead of solving f(t)=0 on
the interval from the stationary point to the domain maximum. -/
theorem C1_else_branch_nameerror :
    get_timelag_fromU0 Oneg Cc T0 ring2 (MethodArg.enum ELossMethod.INTEGRAL)
      none = Except.error (PyErr.nameError ("zero_cross")) := by
  with_unfolding_all decide

/-- C2: the claim says the single-frequency path returns the closed-form
arcsin time-lag broadcast to every cavity. Evaluating it at a stable
single-cavity ring shows otherwise: line 132 multiplies by np.ones with
np an undefined name (the module imports numpy only), so the call raises
NameError instead of returning the broadcast closed-form time-lag. -/
theorem C2_single_path_nameerror :
    get_timelag_fromU0 Opos Cc T0 ring1 (MethodArg.enum ELossMethod.INTEGRAL)
      none = Except.error (PyErr.nameError ("np")) := by
  with_unfolding_all decide

/-- C6: the claim (and the docstring of set_cavity_phase) says that with
copy=True a shallow copy containing the replaced cavity elements is
returned to the caller. Evaluating the code shows otherwise: the
function discards the result of set_value_refpts and has no return
statement, so the supplied ring is left unchanged and the Python return
value is None, while the shallow copy that should have been returned
(second conjunct) does differ from the original ring. -/
theorem C6_copy_not_returned :
    (set_cavity_phase Opos Cc T0 ring3 (MethodArg.enum ELossMethod.INTEGRAL)
        none none true = Except.ok (ring3, none)) ∧
    set_value_refpts ring3 (get_refpts_cav ring3)
        [(1 : ℚ) / 2, 5 / 2] ≠ ring3 := by
  with_unfolding_all decide



theorem argminQ_lt_length (l : List ℚ) (h : l ≠ []) : argminQ l < l.length := by
  induction l with
  | nil => exact absurd rfl h
  | cons x xs ih =>
      simp only [argminQ, List.length_cons]
      split
      · omega
      · rename_i m hm
        split
        · omega
        · have hne : xs ≠ [] := by
            intro he
            rw [he] at hm
            simp [List.min?] at hm
          have h2 := ih hne
          omega

theorem getD_map_of_lt (f : ℚ → ℚ) (l : List ℚ) (i : ℕ) (hi : i < l.length) :
    (l.map f).getD i 0 = f (l.getD i 0) := by
  rw [List.getD_eq_getElem?_getD, List.getD_eq_getElem?_getD,
    List.getElem?_map, List.getElem?_eq_getElem hi]
  simp

theorem timelag_shift_offsets (phis : ℚ) (tl0 freq : List ℚ)
    (hj : argminQ freq < tl0.length) (i : ℕ)
    (hi : i < (timelag_shift phis tl0 freq).length) :
    (timelag_shift phis tl0 freq).getD i 0 -
        (timelag_shift phis tl0 freq).getD (argminQ freq) 0 =
      tl0.getD i 0 - tl0.getD (argminQ freq) 0 := by
  rw [timelag_shift] at hi ⊢
  rw [List.length_map] at hi
  rw [getD_map_of_lt _ _ _ hi, getD_map_of_lt _ _ _ hj]
  ring



/-- C3: the PhysicallyUnstable error is raised exactly when the computed
energy loss exceeds the relevant cavity voltage. -/
theorem C3_unstable_voltage_check (O : SolveOracles) (C : Consts)
    (T : TrackOracles) (ring : Ring) (method : MethodArg)
    (cavpts : Option (List ℕ)) (u0 : ℚ)
    (h : (get_energy_loss C T ring method).1 = Except.ok u0) :
    get_timelag_fromU0 O C T ring method cavpts =
        Except.error (PyErr.atError ("Not enough RF voltage: unstable ring"))
      ↔ u0 > total_rf_voltage ring cavpts := by
  unfold get_timelag_fromU0 total_rf_voltage
  rw [h]
  simp only [Bind.bind, Except.bind]
  cases hc : combined_rf ring cavpts with
  | ok pr =>
      obtain ⟨rfv, f⟩ := pr
      by_cases hu : u0 > rfv
      · simp [hu]
      · simp [hu]
  | error e =>
      unfold fallback_timelag
      by_cases hu : u0 >
          ((selectCavs ring (cavpts.getD (get_refpts_cav ring))).map
            (fun c => c.2.1)).sum
      · simp [hu]
      · simp only [hu, if_false]
        cases hm : ((selectCavs ring (cavpts.getD (get_refpts_cav ring))).map
            (fun c => c.1)).min? with
        | none => simp [hu]
        | some fmin =>
            simp only [hu, iff_false]
            split
            · simp
            · simp



/-- C5 amended: whenever get_timelag_fromU0 returns an assignment, the
entries are the pre-existing time-lags shifted by one common value, so
each entry differs from the reference (lowest-frequency) entry by exactly
the pre-existing offset relative to the reference cavity. -/
theorem C5_relative_offsets (O : SolveOracles) (C : Consts)
    (T : TrackOracles) (ring : Ring) (method : MethodArg)
    (cavpts : Option (List ℕ)) (tl : List ℚ)
    (h : get_timelag_fromU0 O C T ring method cavpts = Except.ok tl) :
    tl.length = (sel_tl0 ring cavpts).length ∧
    ∀ i, i < tl.length →
      tl.getD i 0 - tl.getD (argminQ (sel_freq ring cavpts)) 0 =
        (sel_tl0 ring cavpts).getD i 0 -
          (sel_tl0 ring cavpts).getD (argminQ (sel_freq ring cavpts)) 0 := by
  unfold get_timelag_fromU0 at h
  simp only [Bind.bind, Except.bind] at h
  split at h
  · exact absurd h (by simp)
  · rename_i u0 hu0
    split at h
    · rename_i pr hpr
      obtain ⟨rfv, f⟩ := pr
      split at h <;> exact absurd h (by simp)
    · rename_i e he
      unfold fallback_timelag at h
      split at h
      · exact absurd h (by simp)
      · split at h
        · exact absurd h (by simp)
        · rename_i fmin hm
          dsimp only at h
          split at h
          · rename_i hsign
            have htl := Except.ok.inj h
            have hfne : (List.map (fun c => c.1)
                (selectCavs ring (cavpts.getD (get_refpts_cav ring)))) ≠ [] := by
              intro hemp
              rw [hemp] at hm
              simp [List.min?] at hm
            have hj : argminQ (List.map (fun c => c.1)
                  (selectCavs ring (cavpts.getD (get_refpts_cav ring)))) <
                (List.map (fun c => c.2.2)
                  (selectCavs ring (cavpts.getD (get_refpts_cav ring)))).length := by
              have h3 := argminQ_lt_length _ hfne
              simpa [List.length_map] using h3
            rw [← htl]
            unfold sel_tl0 sel_freq
            constructor
            · simp [timelag_shift]
            · intro i hi
              exact timelag_shift_offsets _ _ _ hj i hi
          · exact absurd h (by simp)



/-- C5 counterexample: on ring3 the returned entry of the
lowest-frequency cavity is the solved offset 1/2, not its
original time-lag 5. -/
theorem C5_reference_entry_not_original :
    ((get_timelag_fromU0 Opos Cc T0 ring3 (MethodArg.enum ELossMethod.INTEGRAL)
        none).toOption.map
      (fun l => l.getD (argminQ (sel_freq ring3 none)) 0) =
      some ((1 : ℚ) / 2)) ∧
    (sel_tl0 ring3 none).getD (argminQ (sel_freq ring3 none)) 0 = 5 ∧
    ((1 : ℚ) / 2) ≠ 5 := by
  with_unfolding_all decide

/-- Witness for C5_relative_offsets at ring3. -/
theorem C5_relative_offsets_witness :
    (([(1 : ℚ) / 2, 5 / 2] : List ℚ).length =
        (sel_tl0 ring3 none).length) ∧
    (∀ i, i < ([(1 : ℚ) / 2, 5 / 2] : List ℚ).length →
      ([(1 : ℚ) / 2, 5 / 2] : List ℚ).getD i 0 -
          ([(1 : ℚ) / 2, 5 / 2] : List ℚ).getD
            (argminQ (sel_freq ring3 none)) 0 =
        (sel_tl0 ring3 none).getD i 0 -
          (sel_tl0 ring3 none).getD (argminQ (sel_freq ring3 none)) 0) :=
  C5_relative_offsets Opos Cc T0 ring3 (MethodArg.enum ELossMethod.INTEGRAL)
    none [(1 : ℚ) / 2, 5 / 2] (by with_unfolding_all decide)

/-- Witness for C3_unstable_voltage_check at ring4, whose energy loss
exceeds the summed cavity voltage. -/
theorem C3_unstable_voltage_check_witness :
    ((get_energy_loss Cc T0 ring4 (MethodArg.enum ELossMethod.INTEGRAL)).1 =
        Except.ok 1) ∧
    (get_timelag_fromU0 Oneg Cc T0 ring4 (MethodArg.enum ELossMethod.INTEGRAL)
        none =
      Except.error (PyErr.atError ("Not enough RF voltage: unstable ring")) ↔
      (1 : ℚ) > total_rf_voltage ring4 none) :=
  ⟨by with_unfolding_all decide,
   C3_unstable_voltage_check Oneg Cc T0 ring4
     (MethodArg.enum ELossMethod.INTEGRAL) none 1
     (by with_unfolding_all decide)⟩

/-- Witness for C7_method_argument_handling: an unknown string raises
KeyError, a valid string behaves like the enum value plus a
FutureWarning, and the TRACKING enum on a radiation-off ring fails only
with the radiation precondition error. -/
theorem C7_method_argument_handling_witness :
    (get_energy_loss Cc T0 ring1 (MethodArg.str ("foo")) =
      (Except.error (PyErr.keyError (("foo").toUpper)), [])) ∧
    (get_energy_loss Cc T0 ring1 (MethodArg.str ("Integral")) =
      ((get_energy_loss Cc T0 ring1 (MethodArg.enum ELossMethod.INTEGRAL)).1,
       [Warning.futureWarning
          ("You should use " ++ methodName ELossMethod.INTEGRAL)])) ∧
    PyErr.radiationRequired true = PyErr.radiationRequired true :=
  ⟨(C7_method_argument_handling Cc T0 ring1).2.1 ("foo")
     (by with_unfolding_all decide),
   (C7_method_argument_handling Cc T0 ring1).2.2.1 ("Integral")
     ELossMethod.INTEGRAL (by with_unfolding_all decide),
   (C7_method_argument_handling Cc T0 ring1).2.2.2 ELossMethod.TRACKING
     (PyErr.radiationRequired true) (by with_unfolding_all decide)⟩

end AtPhys
